import Mathlib

/-!
Shallow embedding of the Focus Timer (`src/script.js`, class `FocusTimer`).

Modelling conventions:
- Timestamps (`performance.now()`) and durations are integer milliseconds (`ℤ`);
  `Math.floor(elapsed / 1000)` is exactly Euclidean division `elapsed / 1000`
  on `ℤ` (floor division for the positive divisor 1000).
- `this.state` becomes the structure `TimerState`. The field `animFrameId`
  (a `number | null` handle in JS) is modelled as a `Bool`: `true` iff an
  animation-frame callback is currently scheduled (`animFrameId !== null`).
- `parseInt` on a form input is modelled as an `Option ℤ` (`none` = `NaN`).
- DOM writes, sounds and notifications are presentation effects with no
  bearing on the state struct and are not modelled.
-/

namespace FocusTimer

/-- Timer mode strings: `'pomodoro' | 'shortBreak' | 'longBreak'`. -/
inductive Mode where
  | pomodoro
  | shortBreak
  | longBreak
deriving DecidableEq, Repr

/-- `this.config`: `{ pomodoro, shortBreak, longBreak, sound, notifications }`. -/
structure Config where
  pomodoro : ℤ
  shortBreak : ℤ
  longBreak : ℤ
  sound : String
  notifications : Bool
deriving DecidableEq, Repr

/-- `FocusTimer.DEFAULTS`. -/
def DEFAULTS : Config :=
  { pomodoro := 25
    shortBreak := 5
    longBreak := 15
    sound := "digital"
    notifications := false }

/-- One entry of `FocusTimer.LIMITS`: `{ min, max }`. -/
structure Limit where
  min : ℤ
  max : ℤ
deriving DecidableEq, Repr

/-- `FocusTimer.LIMITS`. -/
structure LimitsT where
  pomodoro : Limit
  shortBreak : Limit
  longBreak : Limit
deriving DecidableEq, Repr

/-- `FocusTimer.LIMITS`: pomodoro 1–120, breaks 1–60. -/
def LIMITS : LimitsT :=
  { pomodoro := { min := 1, max := 120 }
    shortBreak := { min := 1, max := 60 }
    longBreak := { min := 1, max := 60 } }

/-- `this.state`: `{ timeLeft, totalTime, isRunning, mode, animFrameId, lastTick }`. -/
@[ext] structure TimerState where
  timeLeft : ℤ
  totalTime : ℤ
  isRunning : Bool
  mode : Mode
  animFrameId : Bool
  lastTick : Option ℤ
deriving DecidableEq, Repr

/-- `config[this.state.mode]`: JS property lookup by the mode string. -/
def configGet (c : Config) (m : Mode) : ℤ :=
  match m with
  | .pomodoro => c.pomodoro
  | .shortBreak => c.shortBreak
  | .longBreak => c.longBreak

/-- The state built by the constructor (`new FocusTimer()`):
`timeLeft = totalTime = DEFAULTS.pomodoro * 60`, not running, mode `'pomodoro'`,
`animFrameId = null`, `lastTick = null`. -/
def initialState : TimerState :=
  { timeLeft := DEFAULTS.pomodoro * 60
    totalTime := DEFAULTS.pomodoro * 60
    isRunning := false
    mode := .pomodoro
    animFrameId := false
    lastTick := none }

/-- `start()`: `if (this.state.animFrameId) return;` then sets
`isRunning = true`, `lastTick = performance.now()` and schedules the rAF
loop (`animFrameId = requestAnimationFrame(tick)`, i.e. non-null). -/
def start (s : TimerState) (now : ℤ) : TimerState :=
  if s.animFrameId then s
  else { s with isRunning := true, lastTick := some now, animFrameId := true }

/-- `pause()`: `isRunning = false`, cancels any scheduled frame
(`animFrameId = null`), `lastTick = null`. `timeLeft` is untouched. -/
def pause (s : TimerState) : TimerState :=
  { s with isRunning := false, animFrameId := false, lastTick := none }

/-- `_complete()`: calls `this.pause()`; everything else in the handler is
presentation (status text, CSS class, sound, notification). -/
def _complete (s : TimerState) : TimerState :=
  pause s

/-- The rAF callback `tick(now)` defined inside `start()`.

The guard `if !s.animFrameId` models that the browser only invokes the
callback while one is scheduled (`cancelAnimationFrame` in `pause` prevents
any further invocation); the body below the guard is the literal callback:
`elapsed = now - lastTick`; when `elapsed >= 1000`, deduct
`Math.floor(elapsed / 1000)` seconds clamped at 0, advance the anchor by
`secondsPassed * 1000`, and complete (stopping the loop) when
`timeLeft <= 0`; otherwise the loop stays scheduled. JS evaluates
`now - null` as `now - 0`, hence `getD 0`. -/
def tick (s : TimerState) (now : ℤ) : TimerState :=
  if !s.animFrameId then s
  else
    let elapsed := now - s.lastTick.getD 0
    if elapsed ≥ 1000 then
      let secondsPassed := elapsed / 1000
      let s' := { s with
        timeLeft := max 0 (s.timeLeft - secondsPassed)
        lastTick := some (s.lastTick.getD 0 + secondsPassed * 1000) }
      if s'.timeLeft ≤ 0 then _complete s'
      else s'
    else s

/-- `toggle()`: `this.state.isRunning ? this.pause() : this.start()`.
`start` needs the current timestamp, so `toggle` carries it. -/
def toggle (s : TimerState) (now : ℤ) : TimerState :=
  if s.isRunning then pause s else start s now

/-- `reset()`: pauses, then `totalTime = config[mode] * 60`,
`timeLeft = totalTime`. -/
def reset (c : Config) (s : TimerState) : TimerState :=
  let s1 := pause s
  { s1 with
    totalTime := configGet c s1.mode * 60
    timeLeft := configGet c s1.mode * 60 }

/-- `setMode(mode)`: `if (this.state.mode === mode) return;` else switch the
mode and `reset()`. -/
def setMode (c : Config) (s : TimerState) (m : Mode) : TimerState :=
  if s.mode = m then s
  else reset c { s with mode := m }

/-- The raw values of the three duration form inputs, after `parseInt`
(`none` = `NaN`), plus the sound and notification inputs. -/
structure Inputs where
  pomodoro : Option ℤ
  short : Option ℤ
  long : Option ℤ
  sound : String
  notif : Bool
deriving DecidableEq, Repr

/-- `_clamp(value, limits, fallback)`:
`if (isNaN(num) || num < limits.min) return fallback;
 if (num > limits.max) return limits.max; return num;`. -/
def _clamp (value : Option ℤ) (limits : Limit) (fallback : ℤ) : ℤ :=
  match value with
  | none => fallback
  | some num =>
    if num < limits.min then fallback
    else if num > limits.max then limits.max
    else num

/-- `_saveConfig()`: clamps each duration field independently against its own
limits and default; copies sound and notifications through. -/
def _saveConfig (c : Config) (i : Inputs) : Config :=
  { c with
    pomodoro := _clamp i.pomodoro LIMITS.pomodoro DEFAULTS.pomodoro
    shortBreak := _clamp i.short LIMITS.shortBreak DEFAULTS.shortBreak
    longBreak := _clamp i.long LIMITS.longBreak DEFAULTS.longBreak
    sound := i.sound
    notifications := i.notif }

/-- Folding the rAF callback over a list of frame timestamps. -/
def runFrames (s : TimerState) (ts : List ℤ) : TimerState :=
  ts.foldl tick s

/-- Whole application state: the config together with the timer state. -/
structure AppState where
  config : Config
  state : TimerState
deriving DecidableEq, Repr

/-- The public operations (plus frame delivery and settings save) that can
drive the application after `init()`. -/
inductive Op where
  | start (now : ℤ)
  | pause
  | toggle (now : ℤ)
  | reset
  | setMode (m : Mode)
  | frame (now : ℤ)
  | save (i : Inputs)

/-- Dispatch one operation on the application state. -/
def applyOp (a : AppState) : Op → AppState
  | .start now => { a with state := start a.state now }
  | .pause => { a with state := pause a.state }
  | .toggle now => { a with state := toggle a.state now }
  | .reset => { a with state := reset a.config a.state }
  | .setMode m => { a with state := setMode a.config a.state m }
  | .frame now => { a with state := tick a.state now }
  | .save i => { a with config := _saveConfig a.config i }

/-- The application state after `init()` (constructor state followed by
`reset()`), then a sequence of operations. -/
def run (ops : List Op) : AppState :=
  ops.foldl applyOp { config := DEFAULTS, state := reset DEFAULTS initialState }

/-- Modelled from the spec: the per-tick decrement rule of §4.2 ("decrement
`remainingSeconds` by exactly 1 (clamped at 0)"), used to compare against
the code's single clamped multi-second update. -/
def specUnitDecrement (remainingSeconds : ℤ) : ℤ :=
  max 0 (remainingSeconds - 1)

/-- Modelled from the spec: the pure next-mode decision of §4.2, which is
not present in `src/script.js` (the README documents the session-tracking
variant of the app, whose script is not under `src/`):
`nextMode(focus, n) = n % 4 == 0 ? longBreak : shortBreak`, else `focus`. -/
def nextMode (currentMode : Mode) (completedCycles : ℤ) : Mode :=
  if currentMode = Mode.pomodoro then
    if completedCycles % 4 = 0 then Mode.longBreak else Mode.shortBreak
  else Mode.pomodoro

/-- Modelled from the spec: the session-tracking state of §3 — the timer
state extended with the `completedCycles` counter, which `src/script.js`
does not carry. -/
structure SessionState where
  timer : TimerState
  completedCycles : ℤ
deriving DecidableEq, Repr

/-- Modelled from the spec: the payload of the `completed` event of §4.2,
`{mode, completedCycles}`. -/
structure CompletedEvent where
  mode : Mode
  completedCycles : ℤ
deriving DecidableEq, Repr

/-- Modelled from the spec: the completion handler of §4.2 for the
session-tracking variant, absent from `src/script.js` — "stops the
scheduler, increments `completedCycles` if `mode == focus`, raises a
`completed` event carrying `{mode, completedCycles}`". -/
def completeSession (s : SessionState) : SessionState × CompletedEvent :=
  let cycles :=
    if s.timer.mode = Mode.pomodoro then s.completedCycles + 1
    else s.completedCycles
  ({ timer := pause s.timer, completedCycles := cycles },
   { mode := s.timer.mode, completedCycles := cycles })

/-- Modelled from the spec: the frame callback of the session-tracking
variant — the countdown arithmetic is the `tick` of `src/script.js`, with
`completeSession` in place of `_complete` when the countdown reaches 0.
Returns the new state and the raised `completed` event, if any. -/
def tickSession (s : SessionState) (now : ℤ) : SessionState × Option CompletedEvent :=
  if !s.timer.animFrameId then (s, none)
  else
    let elapsed := now - s.timer.lastTick.getD 0
    if elapsed ≥ 1000 then
      let secondsPassed := elapsed / 1000
      let t' : TimerState := { s.timer with
        timeLeft := max 0 (s.timer.timeLeft - secondsPassed)
        lastTick := some (s.timer.lastTick.getD 0 + secondsPassed * 1000) }
      if t'.timeLeft ≤ 0 then
        let r := completeSession { s with timer := t' }
        (r.1, some r.2)
      else ({ s with timer := t' }, none)
    else (s, none)

/-- A concrete completed state, reached from `init()` by starting at
timestamp 0 and delivering one (long-delayed) frame after the full 25-minute
default session: `timeLeft = 0`, stopped. -/
def completedState : TimerState :=
  (run [Op.start 0, Op.frame 1500000]).state

/-- A concrete running state: the freshly initialised app right after
`start()` at timestamp 0. -/
def sampleRunning : TimerState :=
  (run [Op.start 0]).state

/-- A concrete session-tracking state one second before the fourth focus
countdown completes: running with anchor 0, `completedCycles = 3`. -/
def sampleSession : SessionState :=
  { timer := { timeLeft := 1, totalTime := 60, isRunning := true,
               mode := .pomodoro, animFrameId := true, lastTick := some 0 }
    completedCycles := 3 }

/-- State-level invariant: remaining time within bounds, and the running
flag agrees with the scheduled-frame handle. -/
def StateInv (s : TimerState) : Prop :=
  0 ≤ s.timeLeft ∧ s.timeLeft ≤ s.totalTime ∧ s.isRunning = s.animFrameId

/-- Config-level invariant: every duration field is at least 1 minute. -/
def ConfigPos (c : Config) : Prop :=
  1 ≤ c.pomodoro ∧ 1 ≤ c.shortBreak ∧ 1 ≤ c.longBreak

/-- Combined invariant on the application state. -/
def Inv (a : AppState) : Prop :=
  StateInv a.state ∧ ConfigPos a.config

instance (s : TimerState) : Decidable (StateInv s) := by
  unfold StateInv; infer_instance

instance (c : Config) : Decidable (ConfigPos c) := by
  unfold ConfigPos; infer_instance

instance (a : AppState) : Decidable (Inv a) := by
  unfold Inv; infer_instance

end FocusTimer

namespace FocusTimer

/-! ## Helper lemmas -/

lemma stateInv_start (s : TimerState) (now : ℤ) (h : StateInv s) :
    StateInv (start s now) := by
  obtain ⟨h1, h2, h3⟩ := h
  unfold start
  split
  · exact ⟨h1, h2, h3⟩
  · exact ⟨h1, h2, rfl⟩

lemma stateInv_pause (s : TimerState) (h : StateInv s) :
    StateInv (pause s) := by
  obtain ⟨h1, h2, _⟩ := h
  exact ⟨h1, h2, rfl⟩

lemma tick_timeLeft_le (s : TimerState) (now : ℤ) (h0 : 0 ≤ s.timeLeft) :
    (tick s now).timeLeft ≤ s.timeLeft := by
  by_cases hA : s.animFrameId = true
  · simp only [tick, hA, Bool.not_true, Bool.false_eq_true, if_false]
    split_ifs with hE hZ
    · simp only [_complete, pause, max_def]
      split_ifs <;> omega
    · simp only [max_def]
      split_ifs <;> omega
    · exact le_refl _
  · simp [tick, hA]

lemma stateInv_tick (s : TimerState) (now : ℤ) (h : StateInv s) :
    StateInv (tick s now) := by
  obtain ⟨h1, h2, h3⟩ := h
  by_cases hA : s.animFrameId = true
  · simp only [tick, hA, Bool.not_true, Bool.false_eq_true, if_false]
    split_ifs with hE hZ
    · refine ⟨?_, ?_, rfl⟩ <;> simp only [_complete, pause, max_def] <;> split_ifs <;> omega
    · refine ⟨?_, ?_, h3.trans hA⟩ <;> simp only [max_def] <;> split_ifs <;> omega
    · exact ⟨h1, h2, h3⟩
  · simp only [tick, hA, Bool.not_false, if_true]
    exact ⟨h1, h2, h3⟩

lemma stateInv_reset (c : Config) (s : TimerState) (hc : ConfigPos c) :
    StateInv (reset c s) := by
  obtain ⟨hp, hs, hl⟩ := hc
  refine ⟨?_, le_refl _, rfl⟩
  show 0 ≤ configGet c (pause s).mode * 60
  cases (pause s).mode <;> simp only [configGet] <;> omega

lemma stateInv_setMode (c : Config) (s : TimerState) (m : Mode)
    (h : StateInv s) (hc : ConfigPos c) : StateInv (setMode c s m) := by
  unfold setMode
  split
  · exact h
  · exact stateInv_reset c _ hc

lemma _clamp_range (v : Option ℤ) (lim : Limit) (fb : ℤ)
    (h1 : lim.min ≤ fb) (h2 : fb ≤ lim.max) :
    lim.min ≤ _clamp v lim fb ∧ _clamp v lim fb ≤ lim.max := by
  cases v with
  | none => exact ⟨h1, h2⟩
  | some n =>
    simp only [_clamp]
    split_ifs <;> omega

lemma configPos_saveConfig (c : Config) (i : Inputs) :
    ConfigPos (_saveConfig c i) := by
  refine ⟨?_, ?_, ?_⟩
  · exact (_clamp_range i.pomodoro LIMITS.pomodoro DEFAULTS.pomodoro (by decide) (by decide)).1
  · exact (_clamp_range i.short LIMITS.shortBreak DEFAULTS.shortBreak (by decide) (by decide)).1
  · exact (_clamp_range i.long LIMITS.longBreak DEFAULTS.longBreak (by decide) (by decide)).1

lemma inv_applyOp (a : AppState) (op : Op) (h : Inv a) : Inv (applyOp a op) := by
  obtain ⟨hs, hc⟩ := h
  cases op with
  | start now => exact ⟨stateInv_start _ now hs, hc⟩
  | pause => exact ⟨stateInv_pause _ hs, hc⟩
  | toggle now =>
    refine ⟨?_, hc⟩
    show StateInv (toggle a.state now)
    unfold toggle
    split
    · exact stateInv_pause _ hs
    · exact stateInv_start _ now hs
  | reset => exact ⟨stateInv_reset _ _ hc, hc⟩
  | setMode m => exact ⟨stateInv_setMode _ _ m hs hc, hc⟩
  | frame now => exact ⟨stateInv_tick _ now hs, hc⟩
  | save i => exact ⟨hs, configPos_saveConfig a.config i⟩

lemma inv_foldl (l : List Op) (a : AppState) (h : Inv a) :
    Inv (l.foldl applyOp a) := by
  induction l generalizing a with
  | nil => exact h
  | cons op rest ih => exact ih _ (inv_applyOp a op h)

lemma inv_run (ops : List Op) : Inv (run ops) := by
  apply inv_foldl
  decide

lemma chain'_head_le_last (l : List ℤ) (a tl : ℤ)
    (hc : List.Chain' (· ≤ ·) (a :: l)) (hlast : (a :: l).getLast? = some tl) :
    a ≤ tl := by
  induction l generalizing a with
  | nil =>
    simp only [List.getLast?_singleton, Option.some.injEq] at hlast
    omega
  | cons b l' ih =>
    rw [List.getLast?_cons_cons] at hlast
    rw [List.chain'_cons] at hc
    exact le_trans hc.1 (ih b hc.2 hlast)

lemma tick_eq (s : TimerState) (t0 now : ℤ) (ha : s.animFrameId = true)
    (hl : s.lastTick = some t0) (h0 : t0 ≤ now)
    (hb : (now - t0) / 1000 < s.timeLeft) :
    tick s now = { s with timeLeft := s.timeLeft - (now - t0) / 1000,
                          lastTick := some (t0 + (now - t0) / 1000 * 1000) } := by
  simp only [tick, ha, hl, Option.getD_some, Bool.not_true, Bool.false_eq_true, if_false]
  split_ifs with hE hZ
  · exfalso
    rw [max_eq_right (by omega : (0:ℤ) ≤ s.timeLeft - (now - t0) / 1000)] at hZ
    omega
  · rw [max_eq_right (by omega : (0:ℤ) ≤ s.timeLeft - (now - t0) / 1000)]
  · have hq : (now - t0) / 1000 = 0 := by omega
    rw [hq]
    apply TimerState.ext <;> simp [ha, hl]

lemma runFrames_spec (ts : List ℤ) (s : TimerState) (t0 tl : ℤ)
    (ha : s.animFrameId = true) (hr : s.isRunning = true)
    (hl : s.lastTick = some t0)
    (hchain : List.Chain' (· ≤ ·) (t0 :: ts)) (hlast : ts.getLast? = some tl)
    (hb : (tl - t0) / 1000 < s.timeLeft) :
    (runFrames s ts).timeLeft = s.timeLeft - (tl - t0) / 1000 ∧
    (runFrames s ts).lastTick = some (t0 + (tl - t0) / 1000 * 1000) ∧
    (runFrames s ts).isRunning = true ∧
    (runFrames s ts).animFrameId = true := by
  induction ts generalizing s t0 with
  | nil => simp at hlast
  | cons t rest ih =>
    rw [List.chain'_cons] at hchain
    obtain ⟨h0t, hchain'⟩ := hchain
    cases rest with
    | nil =>
      simp only [List.getLast?_singleton, Option.some.injEq] at hlast
      subst hlast
      have hstep := tick_eq s t0 t ha hl h0t hb
      have hrun : runFrames s [t] = tick s t := rfl
      rw [hrun, hstep]
      exact ⟨rfl, rfl, hr, ha⟩
    | cons r rest' =>
      rw [List.getLast?_cons_cons] at hlast
      have htl : t ≤ tl := chain'_head_le_last (r :: rest') t tl hchain' hlast
      have hbt : (t - t0) / 1000 < s.timeLeft := by omega
      have hstep := tick_eq s t0 t ha hl h0t hbt
      have hrun : runFrames s (t :: r :: rest') = runFrames (tick s t) (r :: rest') := rfl
      rw [hrun, hstep]
      rw [List.chain'_cons] at hchain'
      obtain ⟨htr, hchain''⟩ := hchain'
      obtain ⟨ih1, ih2, ih3, ih4⟩ :=
        ih { s with timeLeft := s.timeLeft - (t - t0) / 1000,
                    lastTick := some (t0 + (t - t0) / 1000 * 1000) }
          (t0 + (t - t0) / 1000 * 1000) ha hr rfl
          (by
            rw [List.chain'_cons]
            exact ⟨by omega, hchain''⟩)
          hlast
          (by
            show (tl - (t0 + (t - t0) / 1000 * 1000)) / 1000 < s.timeLeft - (t - t0) / 1000
            omega)
      refine ⟨?_, ?_, ih3, ih4⟩
      · rw [ih1]
        show s.timeLeft - (t - t0) / 1000 - (tl - (t0 + (t - t0) / 1000 * 1000)) / 1000 = _
        omega
      · rw [ih2]
        congr 1
        omega

lemma tick_complete (s : TimerState) (t0 now : ℤ) (ha : s.animFrameId = true)
    (hl : s.lastTick = some t0) (he : 1000 ≤ now - t0)
    (hz : s.timeLeft ≤ (now - t0) / 1000) :
    tick s now = { s with timeLeft := 0, isRunning := false,
                          animFrameId := false, lastTick := none } := by
  have hmax : max 0 (s.timeLeft - (now - t0) / 1000) = 0 :=
    max_eq_left (by omega)
  simp only [tick, ha, hl, Option.getD_some, Bool.not_true, Bool.false_eq_true, if_false]
  rw [if_pos (show now - t0 ≥ 1000 from he), if_pos (show _ ≤ (0:ℤ) from hmax.le)]
  simp only [_complete, pause]
  apply TimerState.ext <;> simp [hmax]

lemma iterate_specUnitDecrement (n : ℕ) (t : ℤ) (hn : 1 ≤ n) :
    specUnitDecrement^[n] t = max 0 (t - n) := by
  induction n with
  | zero => omega
  | succ m ih =>
    rcases Nat.eq_zero_or_pos m with hm | hm
    · subst hm
      simp [specUnitDecrement]
    · rw [Function.iterate_succ_apply', ih hm, specUnitDecrement]
      simp only [max_def]
      split_ifs <;> push_cast <;> omega

end FocusTimer

namespace FocusTimer

/-! ## Claim theorems -/

/-- Claim C1: over any monotone sequence of rAF callback timestamps delivered
while running, spanning `tl - t0` milliseconds since the anchor `t0`, the
total number of whole seconds deducted from `timeLeft` is exactly
`⌊(tl - t0) / 1000⌋`, regardless of how many callbacks it took, and the
anchor is advanced by exactly that many multiples of 1000 ms — never snapped
to the current timestamp — so the sub-second remainder carries over. -/
theorem drift_free_tick_accounting (s : TimerState) (t0 tl : ℤ) (ts : List ℤ)
    (ha : s.animFrameId = true) (hr : s.isRunning = true)
    (hl : s.lastTick = some t0)
    (hchain : List.Chain' (· ≤ ·) (t0 :: ts)) (hlast : ts.getLast? = some tl)
    (hb : (tl - t0) / 1000 < s.timeLeft) :
    (runFrames s ts).timeLeft = s.timeLeft - (tl - t0) / 1000 ∧
    (runFrames s ts).lastTick = some (t0 + (tl - t0) / 1000 * 1000) := by
  have h := runFrames_spec ts s t0 tl ha hr hl hchain hlast hb
  exact ⟨h.1, h.2.1⟩

theorem drift_free_tick_accounting_witness :
    (runFrames sampleRunning [600, 1300, 2500]).timeLeft =
      sampleRunning.timeLeft - (2500 - 0) / 1000 ∧
    (runFrames sampleRunning [600, 1300, 2500]).lastTick =
      some (0 + (2500 - 0) / 1000 * 1000) :=
  drift_free_tick_accounting sampleRunning 0 2500 [600, 1300, 2500]
    (by decide) (by decide) (by decide)
    (by norm_num [List.chain'_cons, List.chain'_singleton]) (by decide) (by decide)

/-- Claim C2: when a running countdown is driven to 0 by a frame, the
session-tracking controller (modelled from the spec) stops the scheduler,
increments `completedCycles` iff the mode is focus, and raises a `completed`
event carrying the mode and the post-increment count; from
`completedCycles = 3` in focus mode this yields 4, and
`nextMode(focus, 4) = longBreak`. -/
theorem completion_increments_cycles (s : SessionState) (t0 now : ℤ)
    (ha : s.timer.animFrameId = true) (hr : s.timer.isRunning = true)
    (hl : s.timer.lastTick = some t0)
    (he : 1000 ≤ now - t0)
    (hz : s.timer.timeLeft ≤ (now - t0) / 1000) :
    (tickSession s now).1.timer.isRunning = false ∧
    (tickSession s now).1.timer.animFrameId = false ∧
    (tickSession s now).1.timer.timeLeft = 0 ∧
    (tickSession s now).1.completedCycles =
      (if s.timer.mode = Mode.pomodoro then s.completedCycles + 1
       else s.completedCycles) ∧
    (tickSession s now).2 =
      some ⟨s.timer.mode, (tickSession s now).1.completedCycles⟩ ∧
    (s.timer.mode = Mode.pomodoro → s.completedCycles = 3 →
      (tickSession s now).1.completedCycles = 4 ∧
      nextMode Mode.pomodoro 4 = Mode.longBreak) := by
  have hmax : max 0 (s.timer.timeLeft - (now - t0) / 1000) = 0 :=
    max_eq_left (by omega)
  simp only [tickSession, ha, hl, Option.getD_some, Bool.not_true,
    Bool.false_eq_true, if_false, if_pos he, hmax]
  rw [if_pos (le_refl (0 : ℤ))]
  simp only [completeSession, pause]
  refine ⟨trivial, trivial, trivial, trivial, trivial, ?_⟩
  intro hm hc
  rw [hm, hc]
  exact ⟨by decide, by decide⟩

theorem completion_increments_cycles_witness :
    (tickSession sampleSession 1500).1.timer.isRunning = false ∧
    (tickSession sampleSession 1500).1.timer.animFrameId = false ∧
    (tickSession sampleSession 1500).1.timer.timeLeft = 0 ∧
    (tickSession sampleSession 1500).1.completedCycles =
      (if sampleSession.timer.mode = Mode.pomodoro then
        sampleSession.completedCycles + 1
       else sampleSession.completedCycles) ∧
    (tickSession sampleSession 1500).2 =
      some ⟨sampleSession.timer.mode, (tickSession sampleSession 1500).1.completedCycles⟩ ∧
    ((tickSession sampleSession 1500).1.completedCycles = 4 ∧
      nextMode Mode.pomodoro 4 = Mode.longBreak) := by
  have h := completion_increments_cycles sampleSession 0 1500
    (by decide) (by decide) (by decide) (by decide) (by decide)
  exact ⟨h.1, h.2.1, h.2.2.1, h.2.2.2.1, h.2.2.2.2.1, h.2.2.2.2.2 (by decide) (by decide)⟩

/-- Claim C3 counterexample: in a genuinely completed state
(`timeLeft = 0`, stopped), `start()` does not fail and the timer does begin
running — there is no `InvalidTransition` and no `remainingSeconds > 0`
precondition in the code. -/
theorem start_on_completed_counterexample :
    completedState.timeLeft = 0 ∧
    completedState.isRunning = false ∧
    completedState.animFrameId = false ∧
    (start completedState 1600000).isRunning = true ∧
    (start completedState 1600000).animFrameId = true := by decide

/-- Claim C3 (amended): `start()` in a completed state with `timeLeft = 0`
is not rejected: the only guard is that no frame is scheduled, so the timer
begins running with `timeLeft = 0`, and the first frame accounting a whole
second immediately completes again, leaving `timeLeft = 0` and the timer
stopped. -/
theorem start_on_completed_runs_then_recompletes (s : TimerState) (now now' : ℤ)
    (hf : s.animFrameId = false) (hz : s.timeLeft = 0) (he : 1000 ≤ now' - now) :
    (start s now).isRunning = true ∧
    (start s now).timeLeft = 0 ∧
    (tick (start s now) now').timeLeft = 0 ∧
    (tick (start s now) now').isRunning = false ∧
    (tick (start s now) now').animFrameId = false := by
  have hs : start s now =
      { s with isRunning := true, lastTick := some now, animFrameId := true } := by
    unfold start
    rw [if_neg (by simp [hf])]
  rw [hs]
  have hc := tick_complete
    { s with isRunning := true, lastTick := some now, animFrameId := true }
    now now' rfl rfl he (show s.timeLeft ≤ (now' - now) / 1000 by omega)
  rw [hc]
  exact ⟨rfl, hz, rfl, rfl, rfl⟩

theorem start_on_completed_runs_then_recompletes_witness :
    (start completedState 1600000).isRunning = true ∧
    (start completedState 1600000).timeLeft = 0 ∧
    (tick (start completedState 1600000) 1601000).timeLeft = 0 ∧
    (tick (start completedState 1600000) 1601000).isRunning = false ∧
    (tick (start completedState 1600000) 1601000).animFrameId = false :=
  start_on_completed_runs_then_recompletes completedState 1600000 1601000
    (by decide) (by decide) (by decide)

/-- Claim C4: in every state reachable by public operations (and frame
deliveries), `0 ≤ timeLeft ≤ totalTime`; a frame tick never increases
`timeLeft`, and neither `pause` nor `_complete` changes it. -/
theorem timeLeft_bounds_and_monotone (ops : List Op) (now : ℤ) (s : TimerState) :
    0 ≤ (run ops).state.timeLeft ∧
    (run ops).state.timeLeft ≤ (run ops).state.totalTime ∧
    (tick (run ops).state now).timeLeft ≤ (run ops).state.timeLeft ∧
    (pause s).timeLeft = s.timeLeft ∧
    (_complete s).timeLeft = s.timeLeft := by
  obtain ⟨⟨h1, h2, _⟩, _⟩ := inv_run ops
  exact ⟨h1, h2, tick_timeLeft_le _ now h1, rfl, rfl⟩

/-- Claim C5: a single frame accounting `N ≥ 1` whole seconds updates
`timeLeft` exactly as `N` successive unit decrements, each clamped at 0
(the spec's per-tick rule), so `timeLeft` changes only by whole seconds. -/
theorem tick_refines_unit_decrements (s : TimerState) (t0 now : ℤ)
    (ha : s.animFrameId = true) (hl : s.lastTick = some t0)
    (he : 1000 ≤ now - t0) :
    (tick s now).timeLeft = specUnitDecrement^[((now - t0) / 1000).toNat] s.timeLeft := by
  have hq1 : 1 ≤ (now - t0) / 1000 := by omega
  rw [iterate_specUnitDecrement _ _ (by omega)]
  have hcast : (((now - t0) / 1000).toNat : ℤ) = (now - t0) / 1000 :=
    Int.toNat_of_nonneg (by omega)
  rw [hcast]
  simp only [tick, ha, hl, Option.getD_some, Bool.not_true, Bool.false_eq_true,
    if_false, if_pos he]
  split
  · simp [_complete, pause]
  · rfl

theorem tick_refines_unit_decrements_witness :
    (tick sampleRunning 2500).timeLeft =
      specUnitDecrement^[(((2500 : ℤ) - 0) / 1000).toNat] sampleRunning.timeLeft :=
  tick_refines_unit_decrements sampleRunning 0 2500 (by decide) (by decide) (by decide)

/-- Claim C6: `start()` is idempotent — a second `start()` with no
intervening `pause()` changes nothing (anchor, remaining time, frame loop),
and `start()` while a frame is already scheduled is a silent no-op. -/
theorem start_idempotent (s : TimerState) (now₁ now₂ : ℤ) :
    start (start s now₁) now₂ = start s now₁ ∧
    (s.animFrameId = true → start s now₂ = s) := by
  constructor
  · by_cases h : s.animFrameId
    · simp [start, h]
    · simp [start, h]
  · intro h
    simp [start, h]

theorem start_idempotent_witness :
    start (start sampleRunning 5) 9 = start sampleRunning 5 ∧
    start sampleRunning 9 = sampleRunning :=
  ⟨(start_idempotent sampleRunning 5 9).1,
   (start_idempotent sampleRunning 9 9).2 (by decide)⟩

/-- Claim C7: `reset()` never fails and from any state yields
`timeLeft = totalTime = config[mode] * 60` for the current mode, with the
scheduler stopped (state back to ready). -/
theorem reset_full_duration (c : Config) (s : TimerState) :
    (reset c s).timeLeft = (reset c s).totalTime ∧
    (reset c s).totalTime = configGet c s.mode * 60 ∧
    (reset c s).isRunning = false ∧
    (reset c s).animFrameId = false ∧
    (reset c s).lastTick = none ∧
    (reset c s).mode = s.mode :=
  ⟨rfl, rfl, rfl, rfl, rfl, rfl⟩

/-- Claim C8: `_saveConfig` validates and clamps each duration field
independently: focus stays in 1–120 and breaks in 1–60 (hence all > 0),
999 for focus clamps to 120, a failed parse falls back to that field's own
default, and each output field depends only on its own input field (no
whole-object fallback). -/
theorem saveConfig_clamps_independently (c : Config) (i : Inputs) :
    (1 ≤ (_saveConfig c i).pomodoro ∧ (_saveConfig c i).pomodoro ≤ 120) ∧
    (1 ≤ (_saveConfig c i).shortBreak ∧ (_saveConfig c i).shortBreak ≤ 60) ∧
    (1 ≤ (_saveConfig c i).longBreak ∧ (_saveConfig c i).longBreak ≤ 60) ∧
    (i.pomodoro = some 999 → (_saveConfig c i).pomodoro = 120) ∧
    (i.pomodoro = none → (_saveConfig c i).pomodoro = DEFAULTS.pomodoro) ∧
    (i.short = none → (_saveConfig c i).shortBreak = DEFAULTS.shortBreak) ∧
    (i.long = none → (_saveConfig c i).longBreak = DEFAULTS.longBreak) ∧
    (∀ i' : Inputs, i'.pomodoro = i.pomodoro →
      (_saveConfig c i').pomodoro = (_saveConfig c i).pomodoro) ∧
    (∀ i' : Inputs, i'.short = i.short →
      (_saveConfig c i').shortBreak = (_saveConfig c i).shortBreak) ∧
    (∀ i' : Inputs, i'.long = i.long →
      (_saveConfig c i').longBreak = (_saveConfig c i).longBreak) := by
  refine ⟨?_, ?_, ?_, ?_, ?_, ?_, ?_, ?_, ?_, ?_⟩
  · exact _clamp_range i.pomodoro LIMITS.pomodoro DEFAULTS.pomodoro (by decide) (by decide)
  · exact _clamp_range i.short LIMITS.shortBreak DEFAULTS.shortBreak (by decide) (by decide)
  · exact _clamp_range i.long LIMITS.longBreak DEFAULTS.longBreak (by decide) (by decide)
  · intro h
    simp [_saveConfig, _clamp, h, LIMITS, DEFAULTS]
  · intro h
    simp [_saveConfig, _clamp, h]
  · intro h
    simp [_saveConfig, _clamp, h]
  · intro h
    simp [_saveConfig, _clamp, h]
  · intro i' h
    show _clamp i'.pomodoro LIMITS.pomodoro DEFAULTS.pomodoro =
      _clamp i.pomodoro LIMITS.pomodoro DEFAULTS.pomodoro
    rw [h]
  · intro i' h
    show _clamp i'.short LIMITS.shortBreak DEFAULTS.shortBreak =
      _clamp i.short LIMITS.shortBreak DEFAULTS.shortBreak
    rw [h]
  · intro i' h
    show _clamp i'.long LIMITS.longBreak DEFAULTS.longBreak =
      _clamp i.long LIMITS.longBreak DEFAULTS.longBreak
    rw [h]

theorem saveConfig_clamps_independently_witness :
    (_saveConfig DEFAULTS ⟨some 999, none, some 0, "bell", true⟩).pomodoro = 120 ∧
    (_saveConfig DEFAULTS ⟨some 999, none, some 0, "bell", true⟩).shortBreak = DEFAULTS.shortBreak ∧
    1 ≤ (_saveConfig DEFAULTS ⟨some 999, none, some 0, "bell", true⟩).longBreak := by
  have h := saveConfig_clamps_independently DEFAULTS ⟨some 999, none, some 0, "bell", true⟩
  exact ⟨h.2.2.2.1 rfl, h.2.2.2.2.2.1 rfl, h.2.2.1.1⟩

/-- Claim C9: `pause()` stops the scheduler leaving `timeLeft` unchanged,
and `pause()` immediately followed by `start()` emits zero ticks before the
next full second, because resume records a fresh anchor. -/
theorem pause_then_start_no_tick (s : TimerState) (now now' : ℤ)
    (h : now' - now < 1000) :
    (pause s).timeLeft = s.timeLeft ∧
    (pause s).isRunning = false ∧
    (pause s).animFrameId = false ∧
    (start (pause s) now).lastTick = some now ∧
    tick (start (pause s) now) now' = start (pause s) now := by
  refine ⟨rfl, rfl, rfl, rfl, ?_⟩
  simp only [start, pause]
  simp only [tick]
  simp [h, not_le]

theorem pause_then_start_no_tick_witness :
    (pause sampleRunning).timeLeft = sampleRunning.timeLeft ∧
    (pause sampleRunning).isRunning = false ∧
    (pause sampleRunning).animFrameId = false ∧
    (start (pause sampleRunning) 5000).lastTick = some 5000 ∧
    tick (start (pause sampleRunning) 5000) 5500 = start (pause sampleRunning) 5000 :=
  pause_then_start_no_tick sampleRunning 5000 5500 (by decide)

/-- Claim C10: in every state reachable by the public operations and frame
deliveries (completion included), the running flag agrees with the presence
of a scheduled animation frame, so `toggle()` always dispatches to the
correct one of `start`/`pause`. -/
theorem isRunning_iff_animFrameId (ops : List Op) (now : ℤ) :
    ((run ops).state.isRunning = true ↔ (run ops).state.animFrameId = true) ∧
    toggle (run ops).state now =
      (if (run ops).state.animFrameId = true then pause (run ops).state
       else start (run ops).state now) := by
  obtain ⟨⟨_, _, h3⟩, _⟩ := inv_run ops
  constructor
  · rw [h3]
  · rw [toggle, h3]

end FocusTimer
